import Mathlib

set_option maxRecDepth 8192

/-!
Shallow embedding of `src/api/ui/vip.go` from the cherry OpenFlow controller:
the VIP (virtual-IP failover pair) REST handlers `listVIP`, `addVIP`,
`removeVIP`, `toggleVIP`, their parameter validation, and the interaction
with the session store, the transactional store gateway (`VIPTransaction`),
and the ARP announcer (`r.announce`).

External collaborators (session store, store gateway, announcer) are
modelled as an `Env` of oracle functions; each handler returns the API
response together with the chronological list of externally visible
events it produced (session lookups, the store transaction, announcement
calls, logged announcement failures).  `addVIP` returns an `Option`
because its success path dereferences the VIP pointer returned by the
gateway with no nil check (a `none` result models that panic); the other
handlers are total because they check for nil explicitly.
-/

namespace Cherry

/-- Modelled from the spec: the `Host` type is defined elsewhere in the `ui`
package (not under the verified sources); per the spec a Host carries at
least an identifier and a hardware (MAC) address. -/
structure Host where
  ID : Nat
  MAC : String
  deriving DecidableEq

/-- The `VIP` record of `src/api/ui/vip.go` (lines 50-56). -/
structure VIP where
  ID : Nat
  IP : String
  ActiveHost : Host
  StandbyHost : Host
  Description : String
  deriving DecidableEq

/-- Modelled from the spec: the `Pagination` type is defined elsewhere in
the `ui` package; the handlers only inspect its `Limit` field (the spec
shape is `pagination:{limit,...}`). -/
structure Pagination where
  Limit : Nat
  Offset : Nat
  deriving DecidableEq

/-- Modelled from the spec: the session `User`; the handlers only use its
requester identifier (`session.(*User).ID`). -/
structure User where
  ID : Nat
  deriving DecidableEq

/-- Modelled from the spec: the `api` package status vocabulary used by the
handlers (OK, invalid-parameter, unknown-session, duplicated, not-found,
internal-error). -/
inductive Status where
  | okay
  | invalidParameter
  | unknownSession
  | duplicated
  | notFound
  | internalServerError
  deriving DecidableEq

/-- Payload of an `api.Response`: nothing, a single VIP (Add), or a VIP
list (List). -/
inductive RespData where
  | none
  | vip (v : VIP)
  | vipList (l : List VIP)
  deriving DecidableEq

/-- An `api.Response` as far as the claims are concerned: status and data
payload (the human-readable `Message` string is formatting only and is not
modelled). -/
structure Response where
  status : Status
  data : RespData
  deriving DecidableEq

/-- Externally visible events of one handler run, in chronological order:
a session-store lookup (`r.session.Get`), the execution of the single
store transaction (`r.DB.Exec`), an announcement call (`r.announce`), and
the logging of an ignored announcement error (`logger.Errorf`). -/
inductive Event where
  | sessionLookup (token : String)
  | txExec
  | announce (ip mac : String)
  | logAnnounceError (msg : String)
  deriving DecidableEq

/-- Oracle environment standing for the external collaborators: the
session store `Get`, and the results the `VIPTransaction` gateway and the
announcer return for given arguments.  `Except.error` models a non-nil Go
error; the `Option VIP` components model possibly-nil VIP pointers. -/
structure Env where
  session : String → Option User
  vipsResult : Pagination → Except String (List VIP)
  addResult : Nat → Nat → Nat → Nat → String → Except String (Option VIP × Bool)
  removeResult : Nat → Nat → Except String (Option VIP)
  toggleResult : Nat → Nat → Except String (Option VIP)
  announceResult : String → String → Option String

/-- Modelled from the spec: `network.NullMAC` (the all-zero hardware
address) lives in the `network` package, not under the verified sources;
the spec calls it the null/zero MAC meaning "no host currently answers
for this IP".  `removeVIP` announces `network.NullMAC.String()`. -/
def NullMACString : String := "00:00:00:00:00:00"

/-- Parameters of the List endpoint (`listVIPParam`, lines 85-88). -/
structure listVIPParam where
  SessionID : String
  Pagination : Cherry.Pagination
  deriving DecidableEq

/-- `listVIPParam.validate` (lines 103-112).  Go `len` on a string is its
UTF-8 byte length, so the session-id check is on `utf8ByteSize`. -/
def listVIPParam.validate (r : listVIPParam) : Option String :=
  if r.SessionID.utf8ByteSize ≠ 64 then some "invalid session id"
  else if r.Pagination.Limit == 0 then some "invalid pagination limit"
  else none

/-- Parameters of the Add endpoint (`addVIPParam`, lines 153-159). -/
structure addVIPParam where
  SessionID : String
  IPID : Nat
  ActiveHostID : Nat
  StandbyHostID : Nat
  Description : String
  deriving DecidableEq

/-- `addVIPParam.validate` (lines 177-195).  The description bound uses
`utf8.RuneCountInString`, i.e. the number of Unicode code points, which is
`String.length` in Lean; the session-id check is Go `len`, i.e. UTF-8
bytes. -/
def addVIPParam.validate (r : addVIPParam) : Option String :=
  if r.SessionID.utf8ByteSize ≠ 64 then some "invalid session id"
  else if r.ActiveHostID == 0 then some "invalid active host id"
  else if r.StandbyHostID == 0 then some "invalid standby host id"
  else if r.ActiveHostID == r.StandbyHostID then some "same host for the active and standby"
  else if r.Description.length > 255 then some "too long description"
  else none

/-- Parameters of the Remove endpoint (`removeVIPParam`, lines 235-238). -/
structure removeVIPParam where
  SessionID : String
  ID : Nat
  deriving DecidableEq

/-- `removeVIPParam.validate` (lines 253-262). -/
def removeVIPParam.validate (r : removeVIPParam) : Option String :=
  if r.SessionID.utf8ByteSize ≠ 64 then some "invalid session id"
  else if r.ID == 0 then some "invalid VIP id"
  else none

/-- Parameters of the Toggle endpoint (`toggleVIPParam`, lines 302-305). -/
structure toggleVIPParam where
  SessionID : String
  ID : Nat
  deriving DecidableEq

/-- `toggleVIPParam.validate` (lines 320-329). -/
def toggleVIPParam.validate (r : toggleVIPParam) : Option String :=
  if r.SessionID.utf8ByteSize ≠ 64 then some "invalid session id"
  else if r.ID == 0 then some "invalid VIP id"
  else none

/-- The events appended after a call to `r.announce`: the announcement
itself, then — when the announcer returned a non-nil error — the log line
for the ignored error. -/
def announceEvents (env : Env) (ip mac : String) : List Event :=
  Event.announce ip mac ::
    (match env.announceResult ip mac with
     | some msg => [Event.logAnnounceError msg]
     | none => [])

/-- `(r *API) listVIP` (lines 58-83).  A validation failure surfaces
through `DecodeJsonPayload` as an invalid-parameter response before the
session lookup.  The success response carries the queried VIP list. -/
def listVIP (env : Env) (p : listVIPParam) : Response × List Event :=
  match p.validate with
  | some _ => (⟨Status.invalidParameter, RespData.none⟩, [])
  | none =>
    match env.session p.SessionID with
    | none => (⟨Status.unknownSession, RespData.none⟩, [Event.sessionLookup p.SessionID])
    | some _ =>
      match env.vipsResult p.Pagination with
      | Except.error _ =>
        (⟨Status.internalServerError, RespData.none⟩,
          [Event.sessionLookup p.SessionID, Event.txExec])
      | Except.ok vips =>
        (⟨Status.okay, RespData.vipList vips⟩,
          [Event.sessionLookup p.SessionID, Event.txExec])

/-- `(r *API) addVIP` (lines 114-151).  The result is `none` exactly when
the handler would dereference a nil VIP pointer (`vip.IP` on line 145):
the gateway reported neither an error nor duplication yet returned a nil
VIP.  On success the handler announces `(vip.IP, vip.ActiveHost.MAC)`,
ignores the announcer error, and answers OK with the VIP as payload. -/
def addVIP (env : Env) (p : addVIPParam) : Option (Response × List Event) :=
  match p.validate with
  | some _ => some (⟨Status.invalidParameter, RespData.none⟩, [])
  | none =>
    match env.session p.SessionID with
    | none => some (⟨Status.unknownSession, RespData.none⟩, [Event.sessionLookup p.SessionID])
    | some user =>
      match env.addResult user.ID p.IPID p.ActiveHostID p.StandbyHostID p.Description with
      | Except.error _ =>
        some (⟨Status.internalServerError, RespData.none⟩,
          [Event.sessionLookup p.SessionID, Event.txExec])
      | Except.ok (vipOpt, duplicated) =>
        if duplicated then
          some (⟨Status.duplicated, RespData.none⟩,
            [Event.sessionLookup p.SessionID, Event.txExec])
        else
          match vipOpt with
          | none => none
          | some vip =>
            some (⟨Status.okay, RespData.vip vip⟩,
              [Event.sessionLookup p.SessionID, Event.txExec] ++
                announceEvents env vip.IP vip.ActiveHost.MAC)

/-- `(r *API) removeVIP` (lines 197-233).  A nil VIP from the gateway is
mapped to the not-found response; on success the handler announces
`(vip.IP, network.NullMAC.String())` and answers OK with no payload. -/
def removeVIP (env : Env) (p : removeVIPParam) : Response × List Event :=
  match p.validate with
  | some _ => (⟨Status.invalidParameter, RespData.none⟩, [])
  | none =>
    match env.session p.SessionID with
    | none => (⟨Status.unknownSession, RespData.none⟩, [Event.sessionLookup p.SessionID])
    | some user =>
      match env.removeResult user.ID p.ID with
      | Except.error _ =>
        (⟨Status.internalServerError, RespData.none⟩,
          [Event.sessionLookup p.SessionID, Event.txExec])
      | Except.ok none =>
        (⟨Status.notFound, RespData.none⟩,
          [Event.sessionLookup p.SessionID, Event.txExec])
      | Except.ok (some vip) =>
        (⟨Status.okay, RespData.none⟩,
          [Event.sessionLookup p.SessionID, Event.txExec] ++
            announceEvents env vip.IP NullMACString)

/-- `(r *API) toggleVIP` (lines 264-300).  A nil VIP from the gateway is
mapped to the not-found response; on success the handler announces the
post-swap record's `(vip.IP, vip.ActiveHost.MAC)` — the new active host —
and answers OK with no payload. -/
def toggleVIP (env : Env) (p : toggleVIPParam) : Response × List Event :=
  match p.validate with
  | some _ => (⟨Status.invalidParameter, RespData.none⟩, [])
  | none =>
    match env.session p.SessionID with
    | none => (⟨Status.unknownSession, RespData.none⟩, [Event.sessionLookup p.SessionID])
    | some user =>
      match env.toggleResult user.ID p.ID with
      | Except.error _ =>
        (⟨Status.internalServerError, RespData.none⟩,
          [Event.sessionLookup p.SessionID, Event.txExec])
      | Except.ok none =>
        (⟨Status.notFound, RespData.none⟩,
          [Event.sessionLookup p.SessionID, Event.txExec])
      | Except.ok (some vip) =>
        (⟨Status.okay, RespData.none⟩,
          [Event.sessionLookup p.SessionID, Event.txExec] ++
            announceEvents env vip.IP vip.ActiveHost.MAC)

/-- The announcement calls of an event trace, as `(ip, mac)` argument
pairs, in order. -/
def announceCalls : List Event → List (String × String)
  | [] => []
  | Event.announce ip mac :: rest => (ip, mac) :: announceCalls rest
  | Event.sessionLookup _ :: rest => announceCalls rest
  | Event.txExec :: rest => announceCalls rest
  | Event.logAnnounceError _ :: rest => announceCalls rest

/-- The event trace of a possibly-panicking handler run (`addVIP`): a
panicking run has produced no response, its trace is taken as empty. -/
def eventsOf : Option (Response × List Event) → List Event
  | none => []
  | some (_, evs) => evs

/-- Auxiliary scan: `true` iff every announcement in the trace is preceded
by an earlier completed store transaction (the flag records whether a
`txExec` has been seen). -/
def announceAfterTxAux : Bool → List Event → Bool
  | _, [] => true
  | _, Event.txExec :: rest => announceAfterTxAux true rest
  | seenTx, Event.announce _ _ :: rest => seenTx && announceAfterTxAux seenTx rest
  | seenTx, Event.sessionLookup _ :: rest => announceAfterTxAux seenTx rest
  | seenTx, Event.logAnnounceError _ :: rest => announceAfterTxAux seenTx rest

/-- `true` iff every announcement call in the trace happens strictly after
a store transaction has completed. -/
def announceAfterTx (evs : List Event) : Bool :=
  announceAfterTxAux false evs

/-- Modelled from the spec: the store implementation behind
`VIPTransaction.ToggleVIP` is not under the verified sources (only the
interface and its doc comment are, lines 41-48): "swaps active host and
standby host of a VIP specified by id and then returns information of the
VIP"; per the spec the swap changes neither `id` nor `ip`. -/
def toggleRecord (v : VIP) : VIP :=
  { v with ActiveHost := v.StandbyHost, StandbyHost := v.ActiveHost }

/-- The per-record update the store applies when toggling the VIP with
identifier `vipID`: swap exactly the matching record. -/
def toggleEntry (vipID : Nat) (w : VIP) : VIP :=
  if w.ID == vipID then toggleRecord w else w

/-- Modelled from the spec: the store-level `ToggleVIP` — find the VIP
with the given id, swap its active and standby hosts in place, and return
the post-swap record; return `none` and leave the store unchanged when no
such VIP exists.  `requesterID` is an opaque audit attribute the spec says
is never interpreted. -/
def ToggleVIPStore (requesterID : Nat) (store : List VIP) (vipID : Nat) :
    Option VIP × List VIP :=
  match store.find? (fun w => w.ID == vipID) with
  | none => (none, store)
  | some v => (some (toggleRecord v), store.map (toggleEntry vipID))

/-! Concrete fixtures used by the witness theorems. -/

/-- A 64-byte (64 ASCII characters) session token. -/
def token64 : String := String.mk (List.replicate 64 'a')

/-- A second, distinct 64-byte session token. -/
def token64b : String := String.mk (List.replicate 64 'b')

/-- A token of 32 two-byte characters: 32 Unicode code points but 64 UTF-8
bytes, so the Go byte-length check accepts it. -/
def cexToken : String := String.mk (List.replicate 32 'é')

/-- Sample active host. -/
def hostA : Host := ⟨1, "00:00:0a:01:02:03"⟩

/-- Sample standby host. -/
def hostB : Host := ⟨2, "00:00:0a:01:02:04"⟩

/-- Sample VIP record. -/
def sampleVIP : VIP := ⟨3, "10.0.0.9", hostA, hostB, "primary"⟩

/-- Sample authenticated user. -/
def sampleUser : User := ⟨5⟩

/-- Environment in which every operation succeeds: any 64-byte token is a
valid session, the gateway returns `sampleVIP`, and announcements
succeed. -/
def sampleEnv : Env where
  session := fun t => if t.utf8ByteSize == 64 then some sampleUser else none
  vipsResult := fun _ => Except.ok [sampleVIP]
  addResult := fun _ _ _ _ _ => Except.ok (some sampleVIP, false)
  removeResult := fun _ _ => Except.ok (some sampleVIP)
  toggleResult := fun _ _ => Except.ok (some sampleVIP)
  announceResult := fun _ _ => none

/-- Environment whose gateway reports a duplicated Add. -/
def dupEnv : Env :=
  { sampleEnv with addResult := fun _ _ _ _ _ => Except.ok (none, true) }

/-- Environment whose gateway returns a nil VIP with no error and no
duplication on Add. -/
def nilAddEnv : Env :=
  { sampleEnv with addResult := fun _ _ _ _ _ => Except.ok (none, false) }

/-- Environment whose announcer always fails. -/
def failAnnounceEnv : Env :=
  { sampleEnv with announceResult := fun _ _ => some "link down" }

/-- Environment whose gateway finds no VIP on Remove and Toggle. -/
def absentEnv : Env :=
  { sampleEnv with
      removeResult := fun _ _ => Except.ok none
      toggleResult := fun _ _ => Except.ok none }

/-- Environment whose session store knows no token. -/
def noSessionEnv : Env :=
  { sampleEnv with session := fun _ => none }

/-- Sample Add parameters. -/
def addP : addVIPParam := ⟨token64, 7, 1, 2, "primary"⟩

/-- Sample Remove parameters. -/
def removeP : removeVIPParam := ⟨token64, 3⟩

/-- Sample Toggle parameters. -/
def toggleP : toggleVIPParam := ⟨token64, 3⟩

/-- Sample List parameters. -/
def listP : listVIPParam := ⟨token64, ⟨10, 0⟩⟩

/-! Helper lemmas. -/

/-- Swapping active and standby twice restores the record. -/
theorem toggleRecord_toggleRecord (v : VIP) : toggleRecord (toggleRecord v) = v := rfl

/-- `toggleEntry` never changes a record's identifier. -/
theorem toggleEntry_ID (vipID : Nat) (w : VIP) : (toggleEntry vipID w).ID = w.ID := by
  unfold toggleEntry
  split <;> rfl

/-- Finding by id commutes with the per-record toggle map, because the
map preserves identifiers. -/
theorem find?_map_toggleEntry (vipID : Nat) (l : List VIP) :
    (l.map (toggleEntry vipID)).find? (fun w => w.ID == vipID) =
      (l.find? (fun w => w.ID == vipID)).map (toggleEntry vipID) := by
  induction l with
  | nil => rfl
  | cons w t ih =>
    by_cases h : (w.ID == vipID) = true
    · have h2 : ((toggleEntry vipID w).ID == vipID) = true := by
        rw [toggleEntry_ID]; exact h
      simp only [List.map_cons, List.find?, h, h2]
      rfl
    · have hf : (w.ID == vipID) = false := Bool.eq_false_iff.mpr h
      have h2f : ((toggleEntry vipID w).ID == vipID) = false := by
        rw [toggleEntry_ID]; exact hf
      simp only [List.map_cons, List.find?, hf, h2f, ih]

/-- Applying the per-record toggle map twice restores the store. -/
theorem map_toggleEntry_toggleEntry (vipID : Nat) (l : List VIP) :
    (l.map (toggleEntry vipID)).map (toggleEntry vipID) = l := by
  induction l with
  | nil => rfl
  | cons w t ih =>
    rw [List.map_cons, List.map_cons, ih]
    congr 1
    by_cases h : (w.ID == vipID) = true
    · have hID : (toggleRecord w).ID = w.ID := rfl
      simp [toggleEntry, h, hID, toggleRecord_toggleRecord]
    · simp [toggleEntry, h]

/-- C8: Toggle is an involution.  When the store holds a VIP with the
requested id, one store-level Toggle returns the swapped record (same id,
same ip), and applying Toggle a second time to the same id returns the
pre-toggle record and restores the whole store. -/
theorem toggleVIPStore_involution (requesterID : Nat) (store : List VIP)
    (vipID : Nat) (v : VIP)
    (h : store.find? (fun w => w.ID == vipID) = some v) :
    (ToggleVIPStore requesterID store vipID).1 = some (toggleRecord v) ∧
    (toggleRecord v).ID = v.ID ∧
    (toggleRecord v).IP = v.IP ∧
    ToggleVIPStore requesterID (ToggleVIPStore requesterID store vipID).2 vipID =
      (some v, store) := by
  have hvID : (v.ID == vipID) = true := by
    have h2 := List.find?_some (p := fun (w : VIP) => w.ID == vipID) h
    exact h2
  have hfirst : ToggleVIPStore requesterID store vipID =
      (some (toggleRecord v), store.map (toggleEntry vipID)) := by
    unfold ToggleVIPStore
    rw [h]
  refine ⟨by rw [hfirst], rfl, rfl, ?_⟩
  rw [hfirst]
  unfold ToggleVIPStore
  rw [find?_map_toggleEntry, h]
  have he : toggleEntry vipID v = toggleRecord v := by
    unfold toggleEntry
    rw [hvID]
    rfl
  simp only [Option.map, he]
  rw [map_toggleEntry_toggleEntry, toggleRecord_toggleRecord]

theorem toggleVIPStore_involution_witness :
    (ToggleVIPStore 5 [sampleVIP] 3).1 = some (toggleRecord sampleVIP) ∧
    (toggleRecord sampleVIP).ID = sampleVIP.ID ∧
    (toggleRecord sampleVIP).IP = sampleVIP.IP ∧
    ToggleVIPStore 5 (ToggleVIPStore 5 [sampleVIP] 3).2 3 =
      (some sampleVIP, [sampleVIP]) :=
  toggleVIPStore_involution 5 [sampleVIP] 3 sampleVIP (by decide)

/-- Characterization of successful Add validation: all five checks of
`addVIPParam.validate` pass. -/
theorem addVIPParam.validate_none_iff (p : addVIPParam) :
    p.validate = none ↔
      p.SessionID.utf8ByteSize = 64 ∧ p.ActiveHostID ≠ 0 ∧ p.StandbyHostID ≠ 0 ∧
        p.ActiveHostID ≠ p.StandbyHostID ∧ p.Description.length ≤ 255 := by
  unfold addVIPParam.validate
  split_ifs with h1 h2 h3 h4 h5 <;> simp_all <;> omega

/-- C7: in Add validation, a description longer than 255 Unicode code
points makes the whole request answer invalid-parameter with no side
effect, and a description of exactly 255 code points passes validation
when the remaining fields are well-formed. -/
theorem addDescriptionBound (env : Env) (p : addVIPParam) :
    (255 < p.Description.length →
      addVIP env p = some (⟨Status.invalidParameter, RespData.none⟩, [])) ∧
    (p.SessionID.utf8ByteSize = 64 → p.ActiveHostID ≠ 0 → p.StandbyHostID ≠ 0 →
      p.ActiveHostID ≠ p.StandbyHostID → p.Description.length = 255 →
      p.validate = none) := by
  constructor
  · intro hd
    cases hv : p.validate with
    | some msg =>
      unfold addVIP
      rw [hv]
    | none =>
      obtain ⟨-, -, -, -, hle⟩ := (addVIPParam.validate_none_iff p).mp hv
      omega
  · intro h1 h2 h3 h4 hd
    exact (addVIPParam.validate_none_iff p).mpr ⟨h1, h2, h3, h4, by omega⟩

theorem addDescriptionBound_witness :
    addVIP sampleEnv ⟨token64, 7, 1, 2, String.mk (List.replicate 256 'a')⟩ =
      some (⟨Status.invalidParameter, RespData.none⟩, []) ∧
    addVIPParam.validate ⟨token64, 7, 1, 2, String.mk (List.replicate 255 'a')⟩ = none :=
  ⟨(addDescriptionBound sampleEnv
      ⟨token64, 7, 1, 2, String.mk (List.replicate 256 'a')⟩).1
     (by simp only [String.length, List.length_replicate]; omega),
   (addDescriptionBound sampleEnv
      ⟨token64, 7, 1, 2, String.mk (List.replicate 255 'a')⟩).2
     (by decide) (by decide) (by decide) (by decide)
     (by simp only [String.length, List.length_replicate])⟩

/-- C5 counterexample: a session token of 32 two-byte characters has 32
characters (not 64), yet the List request is not rejected as invalid
parameter — its UTF-8 byte length is 64, so validation passes, a
session-store lookup happens, and the request succeeds.  The code checks
the token's byte length, not its character count. -/
theorem sessionTokenCharCount_counterexample :
    cexToken.length = 32 ∧
    listVIP sampleEnv ⟨cexToken, ⟨10, 0⟩⟩ =
      (⟨Status.okay, RespData.vipList [sampleVIP]⟩,
        [Event.sessionLookup cexToken, Event.txExec]) := by
  constructor
  · decide
  · decide

/-- C5 (amended): for every request whose session token's UTF-8 byte
length differs from 64, the request is rejected as invalid parameter and
no session-store lookup (nor any other external interaction) happens. -/
theorem badTokenLengthRejectedEarly (env : Env) :
    (∀ p : listVIPParam, p.SessionID.utf8ByteSize ≠ 64 →
      listVIP env p = (⟨Status.invalidParameter, RespData.none⟩, [])) ∧
    (∀ p : addVIPParam, p.SessionID.utf8ByteSize ≠ 64 →
      addVIP env p = some (⟨Status.invalidParameter, RespData.none⟩, [])) ∧
    (∀ p : removeVIPParam, p.SessionID.utf8ByteSize ≠ 64 →
      removeVIP env p = (⟨Status.invalidParameter, RespData.none⟩, [])) ∧
    (∀ p : toggleVIPParam, p.SessionID.utf8ByteSize ≠ 64 →
      toggleVIP env p = (⟨Status.invalidParameter, RespData.none⟩, [])) := by
  refine ⟨fun p h => ?_, fun p h => ?_, fun p h => ?_, fun p h => ?_⟩
  · have hv : p.validate = some "invalid session id" := by
      unfold listVIPParam.validate
      simp [h]
    unfold listVIP
    rw [hv]
  · have hv : p.validate = some "invalid session id" := by
      unfold addVIPParam.validate
      simp [h]
    unfold addVIP
    rw [hv]
  · have hv : p.validate = some "invalid session id" := by
      unfold removeVIPParam.validate
      simp [h]
    unfold removeVIP
    rw [hv]
  · have hv : p.validate = some "invalid session id" := by
      unfold toggleVIPParam.validate
      simp [h]
    unfold toggleVIP
    rw [hv]

theorem badTokenLengthRejectedEarly_witness :
    listVIP sampleEnv ⟨"short", ⟨10, 0⟩⟩ =
      (⟨Status.invalidParameter, RespData.none⟩, []) ∧
    addVIP sampleEnv ⟨"short", 7, 1, 2, "d"⟩ =
      some (⟨Status.invalidParameter, RespData.none⟩, []) ∧
    removeVIP sampleEnv ⟨"short", 3⟩ =
      (⟨Status.invalidParameter, RespData.none⟩, []) ∧
    toggleVIP sampleEnv ⟨"short", 3⟩ =
      (⟨Status.invalidParameter, RespData.none⟩, []) :=
  ⟨(badTokenLengthRejectedEarly sampleEnv).1 ⟨"short", ⟨10, 0⟩⟩ (by decide),
   (badTokenLengthRejectedEarly sampleEnv).2.1 ⟨"short", 7, 1, 2, "d"⟩ (by decide),
   (badTokenLengthRejectedEarly sampleEnv).2.2.1 ⟨"short", 3⟩ (by decide),
   (badTokenLengthRejectedEarly sampleEnv).2.2.2 ⟨"short", 3⟩ (by decide)⟩

/-- C1: every successful Add, Remove, or Toggle performs exactly one
announcement call — Add with `(vip.IP, vip.ActiveHost.MAC)`, Remove with
`(vip.IP, null-MAC)`, Toggle with the post-swap record's
`(vip.IP, vip.ActiveHost.MAC)` (the new active host) — and the
announcement happens only after the store transaction has completed. -/
theorem successfulMutationAnnouncesOnce (env : Env) :
    (∀ (p : addVIPParam) (user : User) (vip : VIP),
      p.validate = none →
      env.session p.SessionID = some user →
      env.addResult user.ID p.IPID p.ActiveHostID p.StandbyHostID p.Description =
        Except.ok (some vip, false) →
      ∃ evs, addVIP env p = some (⟨Status.okay, RespData.vip vip⟩, evs) ∧
        announceCalls evs = [(vip.IP, vip.ActiveHost.MAC)] ∧
        announceAfterTx evs = true) ∧
    (∀ (p : removeVIPParam) (user : User) (vip : VIP),
      p.validate = none →
      env.session p.SessionID = some user →
      env.removeResult user.ID p.ID = Except.ok (some vip) →
      ∃ evs, removeVIP env p = (⟨Status.okay, RespData.none⟩, evs) ∧
        announceCalls evs = [(vip.IP, NullMACString)] ∧
        announceAfterTx evs = true) ∧
    (∀ (p : toggleVIPParam) (user : User) (vip : VIP),
      p.validate = none →
      env.session p.SessionID = some user →
      env.toggleResult user.ID p.ID = Except.ok (some vip) →
      ∃ evs, toggleVIP env p = (⟨Status.okay, RespData.none⟩, evs) ∧
        announceCalls evs = [(vip.IP, vip.ActiveHost.MAC)] ∧
        announceAfterTx evs = true) := by
  refine ⟨fun p user vip hv hs ha => ?_, fun p user vip hv hs ha => ?_,
    fun p user vip hv hs ha => ?_⟩
  · refine ⟨[Event.sessionLookup p.SessionID, Event.txExec] ++
      announceEvents env vip.IP vip.ActiveHost.MAC, ?_, ?_, ?_⟩
    · simp [addVIP, hv, hs, ha]
    · unfold announceEvents
      cases env.announceResult vip.IP vip.ActiveHost.MAC <;> simp [announceCalls]
    · unfold announceAfterTx announceEvents
      cases env.announceResult vip.IP vip.ActiveHost.MAC <;> simp [announceAfterTxAux]
  · refine ⟨[Event.sessionLookup p.SessionID, Event.txExec] ++
      announceEvents env vip.IP NullMACString, ?_, ?_, ?_⟩
    · simp [removeVIP, hv, hs, ha]
    · unfold announceEvents
      cases env.announceResult vip.IP NullMACString <;> simp [announceCalls]
    · unfold announceAfterTx announceEvents
      cases env.announceResult vip.IP NullMACString <;> simp [announceAfterTxAux]
  · refine ⟨[Event.sessionLookup p.SessionID, Event.txExec] ++
      announceEvents env vip.IP vip.ActiveHost.MAC, ?_, ?_, ?_⟩
    · simp [toggleVIP, hv, hs, ha]
    · unfold announceEvents
      cases env.announceResult vip.IP vip.ActiveHost.MAC <;> simp [announceCalls]
    · unfold announceAfterTx announceEvents
      cases env.announceResult vip.IP vip.ActiveHost.MAC <;> simp [announceAfterTxAux]

theorem successfulMutationAnnouncesOnce_witness :
    (∃ evs, addVIP sampleEnv addP = some (⟨Status.okay, RespData.vip sampleVIP⟩, evs) ∧
      announceCalls evs = [(sampleVIP.IP, sampleVIP.ActiveHost.MAC)] ∧
      announceAfterTx evs = true) ∧
    (∃ evs, removeVIP sampleEnv removeP = (⟨Status.okay, RespData.none⟩, evs) ∧
      announceCalls evs = [(sampleVIP.IP, NullMACString)] ∧
      announceAfterTx evs = true) ∧
    (∃ evs, toggleVIP sampleEnv toggleP = (⟨Status.okay, RespData.none⟩, evs) ∧
      announceCalls evs = [(sampleVIP.IP, sampleVIP.ActiveHost.MAC)] ∧
      announceAfterTx evs = true) :=
  ⟨(successfulMutationAnnouncesOnce sampleEnv).1 addP sampleUser sampleVIP
      (by decide) (by decide) rfl,
   (successfulMutationAnnouncesOnce sampleEnv).2.1 removeP sampleUser sampleVIP
      (by decide) (by decide) rfl,
   (successfulMutationAnnouncesOnce sampleEnv).2.2 toggleP sampleUser sampleVIP
      (by decide) (by decide) rfl⟩

/-- C2: a Remove or Toggle whose VIP id the gateway does not find (nil
record, no error) answers not-found and makes no announcement call. -/
theorem notFoundMutationAnnouncesNothing (env : Env) :
    (∀ (p : removeVIPParam) (user : User),
      p.validate = none →
      env.session p.SessionID = some user →
      env.removeResult user.ID p.ID = Except.ok none →
      removeVIP env p =
        (⟨Status.notFound, RespData.none⟩,
          [Event.sessionLookup p.SessionID, Event.txExec]) ∧
      announceCalls (removeVIP env p).2 = []) ∧
    (∀ (p : toggleVIPParam) (user : User),
      p.validate = none →
      env.session p.SessionID = some user →
      env.toggleResult user.ID p.ID = Except.ok none →
      toggleVIP env p =
        (⟨Status.notFound, RespData.none⟩,
          [Event.sessionLookup p.SessionID, Event.txExec]) ∧
      announceCalls (toggleVIP env p).2 = []) := by
  refine ⟨fun p user hv hs ha => ?_, fun p user hv hs ha => ?_⟩
  · have h1 : removeVIP env p =
        (⟨Status.notFound, RespData.none⟩,
          [Event.sessionLookup p.SessionID, Event.txExec]) := by
      simp [removeVIP, hv, hs, ha]
    exact ⟨h1, by rw [h1]; simp [announceCalls]⟩
  · have h1 : toggleVIP env p =
        (⟨Status.notFound, RespData.none⟩,
          [Event.sessionLookup p.SessionID, Event.txExec]) := by
      simp [toggleVIP, hv, hs, ha]
    exact ⟨h1, by rw [h1]; simp [announceCalls]⟩

theorem notFoundMutationAnnouncesNothing_witness :
    (removeVIP absentEnv removeP =
        (⟨Status.notFound, RespData.none⟩,
          [Event.sessionLookup removeP.SessionID, Event.txExec]) ∧
      announceCalls (removeVIP absentEnv removeP).2 = []) ∧
    (toggleVIP absentEnv toggleP =
        (⟨Status.notFound, RespData.none⟩,
          [Event.sessionLookup toggleP.SessionID, Event.txExec]) ∧
      announceCalls (toggleVIP absentEnv toggleP).2 = []) :=
  ⟨(notFoundMutationAnnouncesNothing absentEnv).1 removeP sampleUser
      (by decide) (by decide) rfl,
   (notFoundMutationAnnouncesNothing absentEnv).2 toggleP sampleUser
      (by decide) (by decide) rfl⟩

/-- C3: when the store transaction succeeded and changed state but the
announcement call fails, the operation still answers OK; the failure is
only logged (the trace ends with the log event). -/
theorem announceFailureStillOkay (env : Env) :
    (∀ (p : addVIPParam) (user : User) (vip : VIP) (msg : String),
      p.validate = none →
      env.session p.SessionID = some user →
      env.addResult user.ID p.IPID p.ActiveHostID p.StandbyHostID p.Description =
        Except.ok (some vip, false) →
      env.announceResult vip.IP vip.ActiveHost.MAC = some msg →
      addVIP env p = some (⟨Status.okay, RespData.vip vip⟩,
        [Event.sessionLookup p.SessionID, Event.txExec,
          Event.announce vip.IP vip.ActiveHost.MAC, Event.logAnnounceError msg])) ∧
    (∀ (p : removeVIPParam) (user : User) (vip : VIP) (msg : String),
      p.validate = none →
      env.session p.SessionID = some user →
      env.removeResult user.ID p.ID = Except.ok (some vip) →
      env.announceResult vip.IP NullMACString = some msg →
      removeVIP env p = (⟨Status.okay, RespData.none⟩,
        [Event.sessionLookup p.SessionID, Event.txExec,
          Event.announce vip.IP NullMACString, Event.logAnnounceError msg])) ∧
    (∀ (p : toggleVIPParam) (user : User) (vip : VIP) (msg : String),
      p.validate = none →
      env.session p.SessionID = some user →
      env.toggleResult user.ID p.ID = Except.ok (some vip) →
      env.announceResult vip.IP vip.ActiveHost.MAC = some msg →
      toggleVIP env p = (⟨Status.okay, RespData.none⟩,
        [Event.sessionLookup p.SessionID, Event.txExec,
          Event.announce vip.IP vip.ActiveHost.MAC, Event.logAnnounceError msg])) := by
  refine ⟨fun p user vip msg hv hs ha hA => ?_, fun p user vip msg hv hs ha hA => ?_,
    fun p user vip msg hv hs ha hA => ?_⟩
  · simp [addVIP, announceEvents, hv, hs, ha, hA]
  · simp [removeVIP, announceEvents, hv, hs, ha, hA]
  · simp [toggleVIP, announceEvents, hv, hs, ha, hA]

theorem announceFailureStillOkay_witness :
    addVIP failAnnounceEnv addP = some (⟨Status.okay, RespData.vip sampleVIP⟩,
      [Event.sessionLookup addP.SessionID, Event.txExec,
        Event.announce sampleVIP.IP sampleVIP.ActiveHost.MAC,
        Event.logAnnounceError "link down"]) ∧
    removeVIP failAnnounceEnv removeP = (⟨Status.okay, RespData.none⟩,
      [Event.sessionLookup removeP.SessionID, Event.txExec,
        Event.announce sampleVIP.IP NullMACString,
        Event.logAnnounceError "link down"]) ∧
    toggleVIP failAnnounceEnv toggleP = (⟨Status.okay, RespData.none⟩,
      [Event.sessionLookup toggleP.SessionID, Event.txExec,
        Event.announce sampleVIP.IP sampleVIP.ActiveHost.MAC,
        Event.logAnnounceError "link down"]) :=
  ⟨(announceFailureStillOkay failAnnounceEnv).1 addP sampleUser sampleVIP "link down"
      (by decide) (by decide) rfl rfl,
   (announceFailureStillOkay failAnnounceEnv).2.1 removeP sampleUser sampleVIP "link down"
      (by decide) (by decide) rfl rfl,
   (announceFailureStillOkay failAnnounceEnv).2.2 toggleP sampleUser sampleVIP "link down"
      (by decide) (by decide) rfl rfl⟩

/-- C4: a request whose session token the session store does not know
answers unknown-session and never opens a store transaction, for all four
operations. -/
theorem unknownSessionNoTransaction (env : Env) :
    (∀ p : listVIPParam, p.validate = none → env.session p.SessionID = none →
      listVIP env p =
        (⟨Status.unknownSession, RespData.none⟩, [Event.sessionLookup p.SessionID]) ∧
      Event.txExec ∉ (listVIP env p).2) ∧
    (∀ p : addVIPParam, p.validate = none → env.session p.SessionID = none →
      addVIP env p =
        some (⟨Status.unknownSession, RespData.none⟩, [Event.sessionLookup p.SessionID]) ∧
      Event.txExec ∉ eventsOf (addVIP env p)) ∧
    (∀ p : removeVIPParam, p.validate = none → env.session p.SessionID = none →
      removeVIP env p =
        (⟨Status.unknownSession, RespData.none⟩, [Event.sessionLookup p.SessionID]) ∧
      Event.txExec ∉ (removeVIP env p).2) ∧
    (∀ p : toggleVIPParam, p.validate = none → env.session p.SessionID = none →
      toggleVIP env p =
        (⟨Status.unknownSession, RespData.none⟩, [Event.sessionLookup p.SessionID]) ∧
      Event.txExec ∉ (toggleVIP env p).2) := by
  refine ⟨fun p hv hs => ?_, fun p hv hs => ?_, fun p hv hs => ?_, fun p hv hs => ?_⟩
  · have h1 : listVIP env p =
        (⟨Status.unknownSession, RespData.none⟩, [Event.sessionLookup p.SessionID]) := by
      simp [listVIP, hv, hs]
    exact ⟨h1, by rw [h1]; simp⟩
  · have h1 : addVIP env p =
        some (⟨Status.unknownSession, RespData.none⟩, [Event.sessionLookup p.SessionID]) := by
      simp [addVIP, hv, hs]
    exact ⟨h1, by rw [h1]; simp [eventsOf]⟩
  · have h1 : removeVIP env p =
        (⟨Status.unknownSession, RespData.none⟩, [Event.sessionLookup p.SessionID]) := by
      simp [removeVIP, hv, hs]
    exact ⟨h1, by rw [h1]; simp⟩
  · have h1 : toggleVIP env p =
        (⟨Status.unknownSession, RespData.none⟩, [Event.sessionLookup p.SessionID]) := by
      simp [toggleVIP, hv, hs]
    exact ⟨h1, by rw [h1]; simp⟩

theorem unknownSessionNoTransaction_witness :
    (listVIP noSessionEnv listP =
        (⟨Status.unknownSession, RespData.none⟩, [Event.sessionLookup listP.SessionID]) ∧
      Event.txExec ∉ (listVIP noSessionEnv listP).2) ∧
    (addVIP noSessionEnv addP =
        some (⟨Status.unknownSession, RespData.none⟩, [Event.sessionLookup addP.SessionID]) ∧
      Event.txExec ∉ eventsOf (addVIP noSessionEnv addP)) ∧
    (removeVIP noSessionEnv removeP =
        (⟨Status.unknownSession, RespData.none⟩, [Event.sessionLookup removeP.SessionID]) ∧
      Event.txExec ∉ (removeVIP noSessionEnv removeP).2) ∧
    (toggleVIP noSessionEnv toggleP =
        (⟨Status.unknownSession, RespData.none⟩, [Event.sessionLookup toggleP.SessionID]) ∧
      Event.txExec ∉ (toggleVIP noSessionEnv toggleP).2) :=
  ⟨(unknownSessionNoTransaction noSessionEnv).1 listP (by decide) rfl,
   (unknownSessionNoTransaction noSessionEnv).2.1 addP (by decide) rfl,
   (unknownSessionNoTransaction noSessionEnv).2.2.1 removeP (by decide) rfl,
   (unknownSessionNoTransaction noSessionEnv).2.2.2 toggleP (by decide) rfl⟩

/-- C6: an Add on which the gateway reports duplication (no error) answers
the duplicated status with no data payload and makes no announcement
call, and the duplicated status is distinct from the internal-error
status. -/
theorem duplicatedAddReported (env : Env) :
    ∀ (p : addVIPParam) (user : User) (vipOpt : Option VIP),
      p.validate = none →
      env.session p.SessionID = some user →
      env.addResult user.ID p.IPID p.ActiveHostID p.StandbyHostID p.Description =
        Except.ok (vipOpt, true) →
      addVIP env p = some (⟨Status.duplicated, RespData.none⟩,
        [Event.sessionLookup p.SessionID, Event.txExec]) ∧
      announceCalls (eventsOf (addVIP env p)) = [] ∧
      Status.duplicated ≠ Status.internalServerError := by
  intro p user vipOpt hv hs ha
  have h1 : addVIP env p = some (⟨Status.duplicated, RespData.none⟩,
      [Event.sessionLookup p.SessionID, Event.txExec]) := by
    simp [addVIP, hv, hs, ha]
  exact ⟨h1, by rw [h1]; simp [eventsOf, announceCalls], by simp⟩

theorem duplicatedAddReported_witness :
    addVIP dupEnv addP = some (⟨Status.duplicated, RespData.none⟩,
      [Event.sessionLookup addP.SessionID, Event.txExec]) ∧
    announceCalls (eventsOf (addVIP dupEnv addP)) = [] ∧
    Status.duplicated ≠ Status.internalServerError :=
  duplicatedAddReported dupEnv addP sampleUser none (by decide) (by decide) rfl

/-- C9: the Add success path dereferences the gateway's VIP pointer with
no nil check: when the gateway returns a nil VIP with no error and no
duplication the handler panics (`none`), and it is panic-free exactly
when that VIP is non-nil; Remove and Toggle instead map a nil result to
the not-found response. -/
theorem addNilVIPPanic (env : Env) :
    (∀ (p : addVIPParam) (user : User),
      p.validate = none →
      env.session p.SessionID = some user →
      (env.addResult user.ID p.IPID p.ActiveHostID p.StandbyHostID p.Description =
          Except.ok (none, false) →
        addVIP env p = none) ∧
      (∀ vip, env.addResult user.ID p.IPID p.ActiveHostID p.StandbyHostID p.Description =
          Except.ok (some vip, false) →
        (addVIP env p).isSome = true)) ∧
    (∀ (p : removeVIPParam) (user : User),
      p.validate = none →
      env.session p.SessionID = some user →
      env.removeResult user.ID p.ID = Except.ok none →
      removeVIP env p = (⟨Status.notFound, RespData.none⟩,
        [Event.sessionLookup p.SessionID, Event.txExec])) ∧
    (∀ (p : toggleVIPParam) (user : User),
      p.validate = none →
      env.session p.SessionID = some user →
      env.toggleResult user.ID p.ID = Except.ok none →
      toggleVIP env p = (⟨Status.notFound, RespData.none⟩,
        [Event.sessionLookup p.SessionID, Event.txExec])) := by
  refine ⟨fun p user hv hs => ⟨fun ha => ?_, fun vip ha => ?_⟩,
    fun p user hv hs ha => ?_, fun p user hv hs ha => ?_⟩
  · simp [addVIP, hv, hs, ha]
  · simp [addVIP, hv, hs, ha]
  · simp [removeVIP, hv, hs, ha]
  · simp [toggleVIP, hv, hs, ha]

theorem addNilVIPPanic_witness :
    addVIP nilAddEnv addP = none ∧
    (addVIP sampleEnv addP).isSome = true ∧
    removeVIP absentEnv ⟨token64, 9⟩ = (⟨Status.notFound, RespData.none⟩,
      [Event.sessionLookup token64, Event.txExec]) ∧
    toggleVIP absentEnv ⟨token64, 9⟩ = (⟨Status.notFound, RespData.none⟩,
      [Event.sessionLookup token64, Event.txExec]) :=
  ⟨((addNilVIPPanic nilAddEnv).1 addP sampleUser (by decide) (by decide)).1 rfl,
   ((addNilVIPPanic sampleEnv).1 addP sampleUser (by decide) (by decide)).2 sampleVIP rfl,
   (addNilVIPPanic absentEnv).2.1 ⟨token64, 9⟩ sampleUser (by decide) (by decide) rfl,
   (addNilVIPPanic absentEnv).2.2 ⟨token64, 9⟩ sampleUser (by decide) (by decide) rfl⟩

/-- C10: the List result does not depend on which valid session issued
the request — the requester identity is discarded and only the pagination
reaches the store query — so two requests with different valid tokens and
equal pagination get the same response. -/
theorem listIdentityIndependent (env : Env) (t1 t2 : String) (g : Pagination)
    (u1 u2 : User)
    (h1 : t1.utf8ByteSize = 64) (h2 : t2.utf8ByteSize = 64) (hg : g.Limit ≠ 0)
    (hs1 : env.session t1 = some u1) (hs2 : env.session t2 = some u2) :
    ∃ r, listVIP env ⟨t1, g⟩ = (r, [Event.sessionLookup t1, Event.txExec]) ∧
      listVIP env ⟨t2, g⟩ = (r, [Event.sessionLookup t2, Event.txExec]) := by
  have hv1 : listVIPParam.validate ⟨t1, g⟩ = none := by
    unfold listVIPParam.validate
    simp [h1, hg]
  have hv2 : listVIPParam.validate ⟨t2, g⟩ = none := by
    unfold listVIPParam.validate
    simp [h2, hg]
  cases hV : env.vipsResult g with
  | error e =>
    exact ⟨⟨Status.internalServerError, RespData.none⟩,
      by simp [listVIP, hv1, hs1, hV], by simp [listVIP, hv2, hs2, hV]⟩
  | ok l =>
    exact ⟨⟨Status.okay, RespData.vipList l⟩,
      by simp [listVIP, hv1, hs1, hV], by simp [listVIP, hv2, hs2, hV]⟩

theorem listIdentityIndependent_witness :
    ∃ r, listVIP sampleEnv ⟨token64, ⟨10, 0⟩⟩ =
        (r, [Event.sessionLookup token64, Event.txExec]) ∧
      listVIP sampleEnv ⟨token64b, ⟨10, 0⟩⟩ =
        (r, [Event.sessionLookup token64b, Event.txExec]) :=
  listIdentityIndependent sampleEnv token64 token64b ⟨10, 0⟩ sampleUser sampleUser
    (by decide) (by decide) (by decide) (by decide) (by decide)

end Cherry
